import Mathlib

/-!
Verification development for the SRA-Fetch-Convert batch pipeline
(`src/app.py`).  The Python source is shallowly embedded: pure helper
functions become Lean functions, subprocess exits / directory listings /
file contents are supplied by explicit environment records, and the
filesystem is an association list from paths to byte lists.  All machine
integers are modelled as `Nat`/`Int`; byte values are `Nat` (< 256 where
produced by the embedding).
-/

set_option autoImplicit false

namespace SraFetch

/-! ## Basic string helpers

`str_starts` / `str_ends` model Python's `str.startswith` / `str.endswith`
on the character-list representation of strings. -/

/-- Does the first character list begin with the second? -/
def startsWithChars : List Char → List Char → Bool
  | _, [] => true
  | [], _ :: _ => false
  | c :: cs, d :: ds => c = d && startsWithChars cs ds

/-- `str_starts s p` models Python `s.startswith(p)`. -/
def str_starts (s p : String) : Bool :=
  startsWithChars s.data p.data

/-- `str_ends s p` models Python `s.endswith(p)`. -/
def str_ends (s p : String) : Bool :=
  startsWithChars s.data.reverse p.data.reverse

/-- Python `s.split()` used on the extra-option strings: whitespace
tokenization, empty tokens dropped.  (We split on the space character;
the option strings relevant to the claims are opaque tokens.) -/
def splitWs (s : String) : List String :=
  (s.split (fun c => c = ' ')).filter (fun t => t ≠ "")

/-! ## Filesystem model

A flat map from full paths to byte contents, as an association list. -/

/-- File store: path ↦ byte content. -/
abbrev Fs := List (String × List Nat)

/-- Read a file's content (first matching entry), `none` if absent. -/
def readFs : Fs → String → Option (List Nat)
  | [], _ => none
  | (q, c) :: rest, p => if q = p then some c else readFs rest p

/-- Delete the entries for path `p`. -/
def removeFs : Fs → String → Fs
  | [], _ => []
  | (q, c) :: rest, p => if q = p then removeFs rest p else (q, c) :: removeFs rest p

/-- Write (create or overwrite) path `p` with content `c`. -/
def writeFs (fs : Fs) (p : String) (c : List Nat) : Fs :=
  (p, c) :: removeFs fs p

@[simp] theorem readFs_writeFs_self (fs : Fs) (p : String) (c : List Nat) :
    readFs (writeFs fs p c) p = some c := by
  simp [writeFs, readFs]

theorem readFs_removeFs_self (fs : Fs) (p : String) :
    readFs (removeFs fs p) p = none := by
  induction fs with
  | nil => rfl
  | cons e rest ih =>
      obtain ⟨q, c⟩ := e
      by_cases h : q = p
      · simpa [removeFs, h] using ih
      · simpa [removeFs, readFs, h] using ih

theorem readFs_removeFs_ne (fs : Fs) (p q : String) (h : q ≠ p) :
    readFs (removeFs fs p) q = readFs fs q := by
  induction fs with
  | nil => rfl
  | cons e rest ih =>
      obtain ⟨k, c⟩ := e
      have hpq : p ≠ q := Ne.symm h
      by_cases he : k = p
      · have hq : k ≠ q := fun hkq => h ((hkq ▸ he : q = p))
        simp [removeFs, he, readFs, hq, hpq, ih]
      · by_cases hq : k = q
        · simp [removeFs, he, readFs, hq, h, ih]
        · simp [removeFs, he, readFs, hq, ih]

/-! ## Compression codec

Modelled from the spec: the actual byte-level encoding is produced by
Python's external `gzip` module, which is not part of this repository;
§4.4 specifies only that the compressed file contains "the same byte
content losslessly encoded".  We model the codec as an executable
lossless byte code: each byte is split into its two base-16 digits
(encoder), and the decoder reassembles consecutive digit pairs. -/

/-- Lossless encoder standing in for the gzip byte encoding. -/
def gzip_encode (bs : List Nat) : List Nat :=
  bs.flatMap (fun b => [b / 16, b % 16])

/-- Decoder for `gzip_encode`. -/
def gzip_decode : List Nat → List Nat
  | h :: l :: rest => (16 * h + l) :: gzip_decode rest
  | _ => []

theorem gzip_decode_encode (bs : List Nat) : gzip_decode (gzip_encode bs) = bs := by
  induction bs with
  | nil => rfl
  | cons b rest ih =>
      have henc : gzip_encode (b :: rest) = b / 16 :: b % 16 :: gzip_encode rest := by
        simp [gzip_encode]
      rw [henc]
      show (16 * (b / 16) + b % 16) :: gzip_decode (gzip_encode rest) = b :: rest
      rw [ih, Nat.div_add_mod]

/-! ## `compress_file` (src/app.py lines 106–112)

Opens the original, writes `file_path + ".gz"` with the encoded content,
removes the original, and returns the compressed path.  A missing input
file is an I/O error (Python `open` would raise). -/

/-- Errors raised inside the per-accession pipeline.  Python raises
`ValueError` / `subprocess.CalledProcessError` / OS errors; the structured
payloads here are what the corresponding exception messages carry. -/
inductive StepError where
  | invalidAccession (acc : String)
  | calledProcessError (cmd : List String) (exitCode : Int)
  | ioError (path : String)
deriving DecidableEq, Repr

/-- `compress_file` from the source, over the filesystem model. -/
def compress_file (fs : Fs) (p : String) : Except StepError (Fs × String) :=
  match readFs fs p with
  | none => .error (.ioError p)
  | some content =>
      let compressed_file_path := p ++ ".gz"
      .ok (removeFs (writeFs fs compressed_file_path (gzip_encode content)) p,
           compressed_file_path)

/-! ## MD5 (`calculate_md5`, src/app.py lines 86–91)

The source streams the file in 4096-byte chunks into `hashlib.md5` and
returns `hexdigest()`.  We embed the MD5 algorithm (RFC 1321) over `Nat`
with explicit masking to 32 bits, and model the chunked streaming as
hashing the concatenation of the 4096-byte chunks (the semantics of
repeated `hash.update`). -/

/-- All 32 bits set: `2^32 - 1`. -/
def mask32 : Nat := 4294967295

/-- 32-bit left rotation. -/
def rotl32 (x n : Nat) : Nat :=
  ((x <<< n) ||| (x >>> (32 - n))) &&& mask32

/-- MD5 round constants `K[i] = floor(2^32 * |sin(i+1)|)`. -/
def md5_K : List Nat :=
  [0xd76aa478, 0xe8c7b756, 0x242070db, 0xc1bdceee,
   0xf57c0faf, 0x4787c62a, 0xa8304613, 0xfd469501,
   0x698098d8, 0x8b44f7af, 0xffff5bb1, 0x895cd7be,
   0x6b901122, 0xfd987193, 0xa679438e, 0x49b40821,
   0xf61e2562, 0xc040b340, 0x265e5a51, 0xe9b6c7aa,
   0xd62f105d, 0x02441453, 0xd8a1e681, 0xe7d3fbc8,
   0x21e1cde6, 0xc33707d6, 0xf4d50d87, 0x455a14ed,
   0xa9e3e905, 0xfcefa3f8, 0x676f02d9, 0x8d2a4c8a,
   0xfffa3942, 0x8771f681, 0x6d9d6122, 0xfde5380c,
   0xa4beea44, 0x4bdecfa9, 0xf6bb4b60, 0xbebfbc70,
   0x289b7ec6, 0xeaa127fa, 0xd4ef3085, 0x04881d05,
   0xd9d4d039, 0xe6db99e5, 0x1fa27cf8, 0xc4ac5665,
   0xf4292244, 0x432aff97, 0xab9423a7, 0xfc93a039,
   0x655b59c3, 0x8f0ccc92, 0xffeff47d, 0x85845dd1,
   0x6fa87e4f, 0xfe2ce6e0, 0xa3014314, 0x4e0811a1,
   0xf7537e82, 0xbd3af235, 0x2ad7d2bb, 0xeb86d391]

/-- MD5 per-round left-rotation amounts. -/
def md5_S : List Nat :=
  [7, 12, 17, 22, 7, 12, 17, 22, 7, 12, 17, 22, 7, 12, 17, 22,
   5, 9, 14, 20, 5, 9, 14, 20, 5, 9, 14, 20, 5, 9, 14, 20,
   4, 11, 16, 23, 4, 11, 16, 23, 4, 11, 16, 23, 4, 11, 16, 23,
   6, 10, 15, 21, 6, 10, 15, 21, 6, 10, 15, 21, 6, 10, 15, 21]

/-- Little-endian bytes of `n`, `k` bytes long. -/
def toLEBytes (n k : Nat) : List Nat :=
  match k with
  | 0 => []
  | k + 1 => n % 256 :: toLEBytes (n / 256) k

/-- Little-endian 32-bit word `g` of a 64-byte block. -/
def le_word (block : List Nat) (g : Nat) : Nat :=
  block.getD (4 * g) 0 + 256 * block.getD (4 * g + 1) 0 +
    65536 * block.getD (4 * g + 2) 0 + 16777216 * block.getD (4 * g + 3) 0

/-- One MD5 round (round index `i` in `0..63`) on state `(a, b, c, d)`. -/
def md5_round (block : List Nat) (st : Nat × Nat × Nat × Nat) (i : Nat) :
    Nat × Nat × Nat × Nat :=
  let a := st.1
  let b := st.2.1
  let c := st.2.2.1
  let d := st.2.2.2
  let f :=
    if i < 16 then (b &&& c) ||| ((b ^^^ mask32) &&& d)
    else if i < 32 then (d &&& b) ||| ((d ^^^ mask32) &&& c)
    else if i < 48 then b ^^^ c ^^^ d
    else c ^^^ (b ||| (d ^^^ mask32))
  let g :=
    if i < 16 then i
    else if i < 32 then (5 * i + 1) % 16
    else if i < 48 then (3 * i + 5) % 16
    else (7 * i) % 16
  let tmp := (f + a + md5_K.getD i 0 + le_word block g) &&& mask32
  (d, (b + rotl32 tmp (md5_S.getD i 0)) &&& mask32, b, c)

/-- Process one 64-byte block: 64 rounds, then add into the running state. -/
def md5_block (st : Nat × Nat × Nat × Nat) (block : List Nat) :
    Nat × Nat × Nat × Nat :=
  let r := (List.range 64).foldl (md5_round block) st
  ((st.1 + r.1) &&& mask32, (st.2.1 + r.2.1) &&& mask32,
   (st.2.2.1 + r.2.2.1) &&& mask32, (st.2.2.2 + r.2.2.2) &&& mask32)

/-- Fuel-indexed chunking: split `l` into pieces of `n` elements (`n ≥ 1`);
the fuel (`l.length` at the entry point) bounds the recursion. -/
def chunks_go {α : Type} (n : Nat) : Nat → List α → List (List α)
  | _, [] => []
  | 0, _ :: _ => []
  | fuel + 1, x :: xs => (x :: xs).take n :: chunks_go n fuel (xs.drop (n - 1))

/-- Split a list into chunks of `n` elements (last chunk may be shorter). -/
def chunksOf {α : Type} (n : Nat) (l : List α) : List (List α) :=
  chunks_go n l.length l

/-- MD5 padding: `0x80`, zeros to 56 mod 64, then the 64-bit little-endian
bit length. -/
def md5_pad (msg : List Nat) : List Nat :=
  msg ++ 128 :: List.replicate ((120 - (msg.length + 1) % 64) % 64) 0 ++
    toLEBytes ((msg.length * 8) % (2 ^ 64)) 8

/-- The 16-byte MD5 digest of a byte list. -/
def md5_bytes (msg : List Nat) : List Nat :=
  let blocks := chunksOf 64 (md5_pad msg)
  let st := blocks.foldl md5_block (0x67452301, 0xefcdab89, 0x98badcfe, 0x10325476)
  toLEBytes st.1 4 ++ toLEBytes st.2.1 4 ++ toLEBytes st.2.2.1 4 ++ toLEBytes st.2.2.2 4

/-- The sixteen lowercase hexadecimal digit characters. -/
def hexDigits : List Char :=
  "0123456789abcdef".data

/-- Character for one hex digit value. -/
def hexChar (n : Nat) : Char := hexDigits.getD n '0'

/-- Two hex characters of one byte, high nibble first (Python `%02x`). -/
def byteToHex (b : Nat) : List Char := [hexChar (b / 16), hexChar (b % 16)]

/-- Lowercase hexadecimal digest string (Python `hexdigest()`). -/
def md5_hex (msg : List Nat) : String :=
  ⟨(md5_bytes msg).flatMap byteToHex⟩

/-- `calculate_md5` from the source: stream the content in 4096-byte chunks
through the running hash; the digest is over the concatenation of the
chunks. -/
def calculate_md5 (content : List Nat) : String :=
  md5_hex ((chunksOf 4096 content).flatten)

/-! ## Pipeline data model (src/app.py lines 29–63, 162–185)

The sidebar configuration becomes an explicit record; the dict returned by
`process_accession` becomes `PipelineResult` (the Python `"Success"` /
`"Failure"` strings become the `Status` inductive, and the `"Error"` key,
present only on failure, becomes an `Option`). -/

/-- The sidebar configuration values read by the pipeline. -/
structure Config where
  sra_toolkit_path : String
  prefetch_options : String
  fasterq_dump_options : String
  output_dir : String
  auto_convert : Bool
  compress_files : Bool
deriving DecidableEq, Repr

/-- `"Success"` / `"Failure"` status strings of the result dict. -/
inductive Status where
  | Success
  | Failure
deriving DecidableEq, Repr

/-- The per-accession result dict. -/
structure PipelineResult where
  accession : String
  status : Status
  outputFile : String
  md5Checksum : String
  error : Option StepError
deriving DecidableEq, Repr

/-- Observable side effects of one `process_accession` run: directories
created, subprocesses launched (argument vectors, in order), directories
listed, files compressed / removed by compression, and files read by the
checksum utility. -/
structure Effects where
  dirsCreated : List String
  subprocCalls : List (List String)
  dirListings : List String
  compressed : List String
  removed : List String
  checksummed : List String
deriving DecidableEq, Repr

/-- No side effects. -/
def emptyEffects : Effects := ⟨[], [], [], [], [], []⟩

/-- Result and effect log of one `process_accession` run. -/
structure ProcOut where
  result : PipelineResult
  effects : Effects
deriving DecidableEq, Repr

/-- Modelled from the spec and §5: the external world one accession's run
interacts with — the exit codes of the two vendor-tool subprocesses
(`prefetch`, `fasterq-dump`), the directory listing of the accession's
output directory after the tools ran, and the file store at that point.
The tools themselves are outside the repository (invoked as black-box
subprocesses), so their behaviour is an oracle. -/
structure AccEnv where
  prefetchExit : Int
  fasterqExit : Int
  listing : List String
  fs : Fs

/-- Shared failure dict of both `except` branches (lines 168–185):
status `"Failure"`, `"N/A"` output file and checksum, and the error. -/
def failure_result (acc : String) (e : StepError) : PipelineResult :=
  { accession := acc, status := .Failure, outputFile := "N/A",
    md5Checksum := "N/A", error := some e }

/-! ## Pipeline steps -/

/-- `validate_accession` (lines 101–103): pure prefix check, raising
`ValueError` (modelled as `StepError.invalidAccession`) otherwise. -/
def valid_accession (acc : String) : Bool :=
  str_starts acc "SRR" || str_starts acc "ERR" || str_starts acc "DRR"

/-- `validate_accession` as the fallible step the orchestrator runs. -/
def validate_accession (acc : String) : Except StepError Unit :=
  if valid_accession acc then .ok () else .error (.invalidAccession acc)

/-- The accession's output subdirectory `os.path.join(output_dir, acc)`
(path separator immaterial to the claims). -/
def acc_dir (cfg : Config) (acc : String) : String :=
  cfg.output_dir ++ "/" ++ acc

/-- Extra-option strings are whitespace-tokenized and appended only when
non-empty (Python truthiness of the option string). -/
def opt_args (s : String) : List String :=
  if s = "" then [] else splitWs s

/-- `prefetch` argument vector (lines 126–128). -/
def prefetch_command (cfg : Config) (acc : String) : List String :=
  (cfg.sra_toolkit_path ++ "/prefetch.exe") :: acc :: opt_args cfg.prefetch_options

/-- `fasterq-dump` argument vector (lines 141–143). -/
def fasterq_command (cfg : Config) (dir acc : String) : List String :=
  (cfg.sra_toolkit_path ++ "/fasterq-dump.exe") :: "--outdir" :: dir :: acc ::
    opt_args cfg.fasterq_dump_options

/-- Output discovery (line 147): names in the listing that start with the
accession, joined to the directory, in listing order. -/
def discover_outputs (dir acc : String) (listing : List String) : List String :=
  (listing.filter (fun f => str_starts f acc)).map (fun f => dir ++ "/" ++ f)

/-- Outcome of the compression loop: final file store, final
`output_files` list, files handed to `compress_file` (in order), and the
first I/O error if one occurred. -/
structure CompressOut where
  fs : Fs
  files : List String
  compressed : List String
  err : Option StepError
deriving DecidableEq, Repr

/-- The compression loop (lines 151–155), embedded with Python's list
iterator semantics: the iterator holds an index into the list object
being mutated; `remove` deletes the first occurrence and `append` adds at
the end, so the length is invariant and the loop performs exactly
`files.length` iterations — the fuel argument (instantiated with
`files.length`) makes that count structural. -/
def compress_go : Nat → Fs → List String → Nat → List String → CompressOut
  | 0, fs, files, _, done => ⟨fs, files, done, none⟩
  | fuel + 1, fs, files, idx, done =>
      if h : idx < files.length then
        let file_path := files.get ⟨idx, h⟩
        if str_ends file_path ".fastq" then
          match compress_file fs file_path with
          | .error e => ⟨fs, files, done, some e⟩
          | .ok (fs', compressed_file_path) =>
              compress_go fuel fs' (files.erase file_path ++ [compressed_file_path])
                (idx + 1) (done ++ [file_path])
        else compress_go fuel fs files (idx + 1) done
      else ⟨fs, files, done, none⟩

/-- The `for file_path in output_files` loop over the mutated list. -/
def compress_loop (fs : Fs) (files : List String) : CompressOut :=
  compress_go files.length fs files 0 []

/-- Line 150: the loop runs only when conversion and compression are both
enabled. -/
def compression_phase (cfg : Config) (fs : Fs) (files : List String) : CompressOut :=
  if cfg.auto_convert && cfg.compress_files then compress_loop fs files
  else ⟨fs, files, [], none⟩

/-- Line 160: `calculate_md5(output_files[0]) if output_files else "N/A"`.
Returns the checksum string together with the list of files actually
read by the checksum utility (empty when the list is empty — the utility
is not invoked).  A missing first file is an I/O error (Python `open`
would raise). -/
def checksum_step (fs : Fs) (files : List String) : Except StepError (String × List String) :=
  match files with
  | [] => .ok ("N/A", [])
  | f :: _ =>
      match readFs fs f with
      | none => .error (.ioError f)
      | some c => .ok (calculate_md5 c, [f])

/-- Lines 146–167: output discovery, optional compression, checksum, and
assembly of the success dict; any step error falls to the `except`
boundary. -/
def after_tools (cfg : Config) (env : AccEnv) (acc dir : String) (eff : Effects) : ProcOut :=
  let effL := { eff with dirListings := eff.dirListings ++ [dir] }
  let output_files := discover_outputs dir acc env.listing
  let comp := compression_phase cfg env.fs output_files
  let effC :=
    { effL with
      compressed := effL.compressed ++ comp.compressed
      removed := effL.removed ++ comp.compressed }
  match comp.err with
  | some e => ⟨failure_result acc e, effC⟩
  | none =>
      match checksum_step comp.fs comp.files with
      | .error e => ⟨failure_result acc e, effC⟩
      | .ok (md5v, cs) =>
          ⟨{ accession := acc, status := .Success,
             outputFile := String.intercalate ", " comp.files,
             md5Checksum := md5v, error := none },
           { effC with checksummed := effC.checksummed ++ cs }⟩

/-- `process_accession` (lines 115–185): validate, create the accession
subdirectory, run `prefetch`, optionally run `fasterq-dump`, then the
post-tool phase; every raised step error is caught at the function's
boundary and becomes the failure dict. -/
def process_accession (cfg : Config) (env : AccEnv) (acc : String) : ProcOut :=
  match validate_accession acc with
  | .error e => ⟨failure_result acc e, emptyEffects⟩
  | .ok _ =>
      let dir := acc_dir cfg acc
      let pcmd := prefetch_command cfg acc
      let eff1 : Effects :=
        { emptyEffects with dirsCreated := [dir], subprocCalls := [pcmd] }
      if env.prefetchExit = 0 then
        if cfg.auto_convert then
          let fcmd := fasterq_command cfg dir acc
          let eff2 := { eff1 with subprocCalls := eff1.subprocCalls ++ [fcmd] }
          if env.fasterqExit = 0 then after_tools cfg env acc dir eff2
          else ⟨failure_result acc (.calledProcessError fcmd env.fasterqExit), eff2⟩
        else after_tools cfg env acc dir eff1
      else ⟨failure_result acc (.calledProcessError pcmd env.prefetchExit), eff1⟩

/-! ## Batch level (src/app.py lines 93–98, 214–260) -/

/-- The batch-fatal error kind: `RuntimeError` raised by
`check_disk_space`, carrying the required and the available amount (the
two numbers interpolated into the exception message). -/
inductive BatchError where
  | insufficientSpace (requiredGb availableGb : Nat)
deriving DecidableEq, Repr

/-- `check_disk_space` (lines 94–98): free bytes are floor-divided into
whole gigabytes and compared against the required threshold. -/
def check_disk_space (freeBytes requiredGb : Nat) : Except BatchError Unit :=
  let free_gb := freeBytes / 2 ^ 30
  if free_gb < requiredGb then .error (.insufficientSpace requiredGb free_gb)
  else .ok ()

/-- Modelled from the spec and §5: the batch-level world — the free bytes
`shutil.disk_usage` reports for the output directory, and the
per-iteration accession environment (iteration `i` of the loop sees
`envs i`). -/
structure BatchEnv where
  freeBytes : Nat
  envs : Nat → AccEnv

/-- The download loop (lines 243–246): one `process_accession` call per
input accession, results appended in input order. -/
def run_batch (cfg : Config) (envs : Nat → AccEnv) : Nat → List String → List PipelineResult
  | _, [] => []
  | i, acc :: rest =>
      (process_accession cfg (envs i) acc).result :: run_batch cfg envs (i + 1) rest

/-- Batch-level observable events, used to state how often the pre-flight
check runs relative to per-accession processing. -/
inductive BatchEvent where
  | diskCheck (requiredGb freeGb : Nat)
  | accessionProcessed (acc : String)
deriving DecidableEq, Repr

/-- Is this event the pre-flight disk check? -/
def isDiskCheck : BatchEvent → Bool
  | .diskCheck _ _ => true
  | _ => false

/-- Is this event the processing of one accession? -/
def isAccessionProcessed : BatchEvent → Bool
  | .accessionProcessed _ => true
  | _ => false

/-- Outcome of pressing "Download SRA Data": either the batch stopped at
the pre-flight check (`st.stop()`, lines 228–233) or it completed with
the accumulated `download_summary`. -/
inductive BatchOutcome where
  | stopped (e : BatchError)
  | completed (results : List PipelineResult)
deriving DecidableEq, Repr

/-- The download handler (lines 223–246): create the output root, run the
disk-space check once with a required threshold of 10 GB, stop the whole
batch on `InsufficientSpace`, otherwise process every accession in
order. -/
def download_handler (cfg : Config) (benv : BatchEnv) (accs : List String) :
    BatchOutcome × List BatchEvent :=
  match check_disk_space benv.freeBytes 10 with
  | .error e => (.stopped e, [.diskCheck 10 (benv.freeBytes / 2 ^ 30)])
  | .ok _ =>
      (.completed (run_batch cfg benv.envs 0 accs),
       .diskCheck 10 (benv.freeBytes / 2 ^ 30) ::
         accs.map BatchEvent.accessionProcessed)

/-! ## Metadata fetcher (src/app.py lines 66–83) -/

/-- Modelled from the spec and §4.7: the remote Entrez metadata service,
outside this repository.  `esearch` either raises (network, malformed
response — the `String` is `str(e)`) or returns the parsed `IdList`;
`efetch` likewise raises or returns the raw record text for an id. -/
structure MetaEnv where
  esearch : Except String (List String)
  efetch : String → Except String String

/-- The dict returned by `fetch_metadata`. -/
structure MetadataRecord where
  accession : String
  metadata : String
deriving DecidableEq, Repr

/-- `fetch_metadata` (lines 66–83): raw record text on success,
`"No metadata found"` on an empty `IdList`, and an error-wrapped message
for any raised exception; the function is total — no fault propagates
past its boundary. -/
def fetch_metadata (env : MetaEnv) (acc : String) : MetadataRecord :=
  match env.esearch with
  | .error e => ⟨acc, "Error fetching metadata: " ++ e⟩
  | .ok idList =>
      match idList with
      | [] => ⟨acc, "No metadata found"⟩
      | sra_id :: _ =>
          match env.efetch sra_id with
          | .error e => ⟨acc, "Error fetching metadata: " ++ e⟩
          | .ok text => ⟨acc, text⟩

/-! ## Structural lemmas about `process_accession` -/

theorem after_tools_result_accession (cfg : Config) (env : AccEnv) (acc dir : String)
    (eff : Effects) : (after_tools cfg env acc dir eff).result.accession = acc := by
  unfold after_tools
  dsimp only
  split
  · rfl
  · split
    · rfl
    · rfl

/-- Every branch of `process_accession` echoes the input accession into
the result dict. -/
theorem process_result_accession (cfg : Config) (env : AccEnv) (acc : String) :
    (process_accession cfg env acc).result.accession = acc := by
  unfold process_accession
  split
  · rfl
  · split
    · split
      · split
        · exact after_tools_result_accession ..
        · rfl
      · exact after_tools_result_accession ..
    · rfl

theorem after_tools_result_shape (cfg : Config) (env : AccEnv) (acc dir : String)
    (eff : Effects) :
    (∃ e, (after_tools cfg env acc dir eff).result = failure_result acc e) ∨
      (after_tools cfg env acc dir eff).result.status = .Success := by
  unfold after_tools
  dsimp only
  split
  · exact Or.inl ⟨_, rfl⟩
  · split
    · exact Or.inl ⟨_, rfl⟩
    · exact Or.inr rfl

/-- Every `process_accession` result is either the shared failure dict or
carries status `Success`. -/
theorem process_result_shape (cfg : Config) (env : AccEnv) (acc : String) :
    (∃ e, (process_accession cfg env acc).result = failure_result acc e) ∨
      (process_accession cfg env acc).result.status = .Success := by
  unfold process_accession
  split
  · exact Or.inl ⟨_, rfl⟩
  · split
    · split
      · split
        · exact after_tools_result_shape ..
        · exact Or.inl ⟨_, rfl⟩
      · exact after_tools_result_shape ..
    · exact Or.inl ⟨_, rfl⟩

/-- The download loop echoes the accession list into the results, in
order. -/
theorem run_batch_map_accession (cfg : Config) (envs : Nat → AccEnv) :
    ∀ (accs : List String) (i : Nat),
      (run_batch cfg envs i accs).map PipelineResult.accession = accs := by
  intro accs
  induction accs with
  | nil => intro i; rfl
  | cons a rest ih =>
      intro i
      simp [run_batch, process_result_accession, ih]

/-! ## Witness fixtures (concrete configurations and environments) -/

/-- A concrete configuration: both toggles on, empty extra options. -/
def cfgW : Config := ⟨"sratoolkit/bin", "", "", "sra_downloads", true, true⟩

/-- An environment whose `prefetch` invocation exits with code 1. -/
def envFailW : AccEnv := ⟨1, 0, [], []⟩

/-- An environment where both tools succeed and no output file appears. -/
def envEmptyW : AccEnv := ⟨0, 0, [], []⟩

/-! ## Claims -/

/-- Claim C1: once the pre-flight disk-space check passes, the batch
completes with exactly one `PipelineResult` per input accession, in input
order (the result list maps back to the input list), and every result
has a definite Success/Failure status — per-accession step failures are
absorbed inside `process_accession`, which is total. -/
theorem batch_one_result_per_accession (cfg : Config) (benv : BatchEnv)
    (accs : List String) (h : 10 ≤ benv.freeBytes / 2 ^ 30) :
    (download_handler cfg benv accs).1 = .completed (run_batch cfg benv.envs 0 accs) ∧
    (run_batch cfg benv.envs 0 accs).map PipelineResult.accession = accs ∧
    (run_batch cfg benv.envs 0 accs).length = accs.length ∧
    (∀ r ∈ run_batch cfg benv.envs 0 accs, r.status = .Success ∨ r.status = .Failure) := by
  refine ⟨?_, run_batch_map_accession cfg benv.envs accs 0, ?_, ?_⟩
  · unfold download_handler check_disk_space
    rw [if_neg (Nat.not_lt.mpr h)]
  · have hm := congrArg List.length (run_batch_map_accession cfg benv.envs accs 0)
    simpa using hm
  · intro r _
    cases hr : r.status
    · exact Or.inl rfl
    · exact Or.inr rfl

theorem batch_one_result_per_accession_witness :
    10 ≤ (17179869184 : Nat) / 2 ^ 30 ∧
    (run_batch cfgW (fun _ => envFailW) 0 ["SRR000001", "BADACC"]).map
      PipelineResult.accession = ["SRR000001", "BADACC"] :=
  ⟨by decide,
   (batch_one_result_per_accession cfgW ⟨17179869184, fun _ => envFailW⟩
      ["SRR000001", "BADACC"] (by decide)).2.1⟩

/-- Claim C2: an accession without a recognized prefix yields the failure
dict carrying the `InvalidAccession` error, with an empty effect log — no
directory creation, no subprocess, no listing, no compression, no removal
and no checksum read happen for it. -/
theorem invalid_accession_failure_no_effects (cfg : Config) (env : AccEnv) (acc : String)
    (h : valid_accession acc = false) :
    (process_accession cfg env acc).result.status = .Failure ∧
    (process_accession cfg env acc).result.error = some (.invalidAccession acc) ∧
    (process_accession cfg env acc).effects = emptyEffects := by
  unfold process_accession validate_accession
  simp [h, failure_result]

theorem invalid_accession_failure_no_effects_witness :
    valid_accession "BADACC" = false ∧
    (process_accession cfgW envEmptyW "BADACC").effects = emptyEffects :=
  ⟨by decide,
   (invalid_accession_failure_no_effects cfgW envEmptyW "BADACC" (by decide)).2.2⟩

/-- Claim C3: if `prefetch` exits non-zero, the accession fails
immediately: the result is the failure dict carrying the command and exit
code, the only subprocess ever launched is that single fetch invocation
(no retry, no conversion), and no listing, compression or checksum step
runs. -/
theorem fetch_failure_fails_fast (cfg : Config) (env : AccEnv) (acc : String)
    (hv : valid_accession acc = true) (hp : env.prefetchExit ≠ 0) :
    (process_accession cfg env acc).result.status = .Failure ∧
    (process_accession cfg env acc).result.error =
      some (.calledProcessError (prefetch_command cfg acc) env.prefetchExit) ∧
    (process_accession cfg env acc).effects.subprocCalls = [prefetch_command cfg acc] ∧
    (process_accession cfg env acc).effects.dirListings = [] ∧
    (process_accession cfg env acc).effects.compressed = [] ∧
    (process_accession cfg env acc).effects.checksummed = [] := by
  unfold process_accession validate_accession
  simp [hv, hp, failure_result, emptyEffects]

theorem fetch_failure_fails_fast_witness :
    valid_accession "SRR000001" = true ∧ envFailW.prefetchExit ≠ 0 ∧
    (process_accession cfgW envFailW "SRR000001").effects.subprocCalls =
      [prefetch_command cfgW "SRR000001"] :=
  ⟨by decide, by decide,
   (fetch_failure_fails_fast cfgW envFailW "SRR000001" (by decide) (by decide)).2.2.1⟩

/-- Claim C10: every failure result carries the `"N/A"` sentinel in both
its checksum field and its output-file field (both `except` branches
build the same dict). -/
theorem failure_result_na_fields (cfg : Config) (env : AccEnv) (acc : String)
    (h : (process_accession cfg env acc).result.status = .Failure) :
    (process_accession cfg env acc).result.md5Checksum = "N/A" ∧
    (process_accession cfg env acc).result.outputFile = "N/A" := by
  rcases process_result_shape cfg env acc with ⟨e, he⟩ | hs
  · rw [he]
    exact ⟨rfl, rfl⟩
  · rw [hs] at h
    exact absurd h (by simp)

theorem failure_result_na_fields_witness :
    (process_accession cfgW envEmptyW "BADACC").result.status = .Failure ∧
    (process_accession cfgW envEmptyW "BADACC").result.md5Checksum = "N/A" ∧
    (process_accession cfgW envEmptyW "BADACC").result.outputFile = "N/A" :=
  ⟨by decide,
   (failure_result_na_fields cfgW envEmptyW "BADACC" (by decide)).1,
   (failure_result_na_fields cfgW envEmptyW "BADACC" (by decide)).2⟩

/-- Claim C4: when free space in whole gigabytes is below the 10 GB
threshold, the pre-flight check raises `InsufficientSpace` carrying the
required and the available amount, the batch stops with no results, and
the event log is exactly one disk check — no accession is processed, and
the check does not recur per accession. -/
theorem insufficient_space_stops_batch (cfg : Config) (benv : BatchEnv)
    (accs : List String) (h : benv.freeBytes / 2 ^ 30 < 10) :
    (download_handler cfg benv accs).1 =
      .stopped (.insufficientSpace 10 (benv.freeBytes / 2 ^ 30)) ∧
    (download_handler cfg benv accs).2 = [.diskCheck 10 (benv.freeBytes / 2 ^ 30)] ∧
    (download_handler cfg benv accs).2.countP isDiskCheck = 1 ∧
    (download_handler cfg benv accs).2.countP isAccessionProcessed = 0 := by
  unfold download_handler check_disk_space
  rw [if_pos h]
  refine ⟨rfl, rfl, ?_, ?_⟩
  · simp [List.countP, List.countP.go, isDiskCheck]
  · simp [List.countP, List.countP.go, isAccessionProcessed]

theorem insufficient_space_stops_batch_witness :
    (0 : Nat) / 2 ^ 30 < 10 ∧
    (download_handler cfgW ⟨0, fun _ => envFailW⟩ ["SRR000001", "SRR000002"]).1 =
      .stopped (.insufficientSpace 10 (0 / 2 ^ 30)) :=
  ⟨by decide,
   (insufficient_space_stops_batch cfgW ⟨0, fun _ => envFailW⟩
      ["SRR000001", "SRR000002"] (by decide)).1⟩

/-- Claim C9: `fetch_metadata` is a total function of the service
behaviour — it always returns a record echoing the accession, whose
metadata field is the raw fetched text (when the query chain succeeded),
the `"No metadata found"` marker (zero matches), or an error-wrapped
message (a raised exception); no fault propagates past its boundary. -/
theorem fetch_metadata_never_raises (env : MetaEnv) (acc : String) :
    (fetch_metadata env acc).accession = acc ∧
    ((fetch_metadata env acc).metadata = "No metadata found" ∨
     (∃ e, (fetch_metadata env acc).metadata = "Error fetching metadata: " ++ e) ∨
     (∃ i rest, env.esearch = .ok (i :: rest) ∧
        env.efetch i = .ok (fetch_metadata env acc).metadata)) := by
  unfold fetch_metadata
  rcases hs : env.esearch with e | idList
  · exact ⟨rfl, Or.inr (Or.inl ⟨e, rfl⟩)⟩
  · rcases idList with _ | ⟨i, rest⟩
    · exact ⟨rfl, Or.inl rfl⟩
    · dsimp only
      rcases hf : env.efetch i with e | text
      · exact ⟨rfl, Or.inr (Or.inl ⟨e, rfl⟩)⟩
      · refine ⟨rfl, Or.inr (Or.inr ⟨i, rest, rfl, ?_⟩)⟩
        rw [hf]

/-! ## Lemmas about the checksum utility -/

/-- Re-joining the chunks reproduces the full input: the chunked
streaming feeds the hash exactly the file's content. -/
theorem chunks_go_flatten {α : Type} (k : Nat) :
    ∀ (fuel : Nat) (l : List α), l.length ≤ fuel →
      (chunks_go (k + 1) fuel l).flatten = l := by
  intro fuel
  induction fuel with
  | zero =>
      intro l hl
      cases l with
      | nil => rfl
      | cons x xs => simp at hl
  | succ fuel ih =>
      intro l hl
      cases l with
      | nil => rfl
      | cons x xs =>
          have hdrop : (xs.drop k).length ≤ fuel := by
            simp only [List.length_drop]
            simp only [List.length_cons] at hl
            omega
          simp only [chunks_go, Nat.add_sub_cancel, List.flatten_cons, ih (xs.drop k) hdrop,
            List.take_succ_cons]
          simp [List.take_append_drop]

theorem chunksOf_4096_flatten {α : Type} (l : List α) : (chunksOf 4096 l).flatten = l := by
  have h := chunks_go_flatten 4095 l.length l (Nat.le_refl _)
  exact h

/-- Every byte emitted by `toLEBytes` is below 256. -/
theorem toLEBytes_lt (k : Nat) : ∀ (n : Nat), ∀ b ∈ toLEBytes n k, b < 256 := by
  induction k with
  | zero => intro n b hb; simp [toLEBytes] at hb
  | succ k ih =>
      intro n b hb
      simp only [toLEBytes, List.mem_cons] at hb
      rcases hb with hb | hb
      · subst hb
        exact Nat.mod_lt _ (by omega)
      · exact ih _ b hb

/-- The MD5 digest is a list of bytes (each below 256). -/
theorem md5_bytes_lt (msg : List Nat) : ∀ b ∈ md5_bytes msg, b < 256 := by
  intro b hb
  unfold md5_bytes at hb
  simp only [List.mem_append] at hb
  rcases hb with ((hb | hb) | hb) | hb <;> exact toLEBytes_lt 4 _ b hb

/-- A hex digit value maps into the sixteen lowercase hex characters. -/
theorem hexChar_mem (n : Nat) (h : n < 16) : hexChar n ∈ hexDigits := by
  interval_cases n <;> decide

/-- Every character of a hex digest is a lowercase hex digit. -/
theorem md5_hex_chars (msg : List Nat) : ∀ c ∈ (md5_hex msg).data, c ∈ hexDigits := by
  intro c hc
  have hc' : c ∈ (md5_bytes msg).flatMap byteToHex := hc
  rw [List.mem_flatMap] at hc'
  obtain ⟨b, hb, hcb⟩ := hc'
  have hb256 := md5_bytes_lt msg b hb
  simp only [byteToHex, List.mem_cons, List.not_mem_nil, or_false] at hcb
  rcases hcb with h | h
  · subst h
    exact hexChar_mem _ ((Nat.div_lt_iff_lt_mul (by omega)).mpr (by omega))
  · subst h
    exact hexChar_mem _ (Nat.mod_lt _ (by omega))

/-- Claim C8: the checksum utility is a pure function (two computations
over the same byte content are identical), its digest is a string of
lowercase hexadecimal characters, and streaming the content in 4096-byte
chunks hashes exactly the full content (the chunked digest equals the
digest of the whole byte list). -/
theorem calculate_md5_deterministic_hex (content : List Nat) :
    calculate_md5 content = calculate_md5 content ∧
    (∀ c ∈ (calculate_md5 content).data, c ∈ hexDigits) ∧
    calculate_md5 content = md5_hex content := by
  have hfull : calculate_md5 content = md5_hex content := by
    unfold calculate_md5
    rw [chunksOf_4096_flatten]
  refine ⟨rfl, ?_, hfull⟩
  rw [hfull]
  exact md5_hex_chars content

/-! ## Compression step claims -/

/-- Appending the compression suffix changes the path. -/
theorem append_gz_ne (p : String) : p ++ ".gz" ≠ p := by
  intro he
  have hdata : ∀ s t : String, (s ++ t).data = s.data ++ t.data := by
    intro s t
    cases s
    cases t
    rfl
  have hl := congrArg (fun s : String => s.data.length) he
  simp only [hdata, List.length_append, List.length_cons, List.length_nil] at hl
  omega

/-- Claim C6: for a readable file, `compress_file` succeeds and returns
the sibling path named original + `".gz"`; in the resulting file store
the compressed sibling holds the losslessly encoded content (decoding
reproduces the original bytes exactly) and the original path no longer
exists. -/
theorem compress_file_roundtrip (fs : Fs) (p : String) (c : List Nat)
    (h : readFs fs p = some c) :
    ∃ fs', compress_file fs p = .ok (fs', p ++ ".gz") ∧
      readFs fs' (p ++ ".gz") = some (gzip_encode c) ∧
      gzip_decode (gzip_encode c) = c ∧
      readFs fs' p = none := by
  refine ⟨removeFs (writeFs fs (p ++ ".gz") (gzip_encode c)) p, ?_, ?_,
    gzip_decode_encode c, readFs_removeFs_self _ _⟩
  · unfold compress_file
    rw [h]
  · rw [readFs_removeFs_ne _ _ _ (append_gz_ne p), readFs_writeFs_self]

/-- Concrete file store for the C6 witness. -/
def fsC6 : Fs := [("sra_downloads/SRR7/SRR7.fastq", [65, 67, 71, 84])]

theorem compress_file_roundtrip_witness :
    readFs fsC6 "sra_downloads/SRR7/SRR7.fastq" = some [65, 67, 71, 84] ∧
    gzip_decode (gzip_encode [65, 67, 71, 84]) = [65, 67, 71, 84] := by
  refine ⟨by decide, ?_⟩
  obtain ⟨fs', h1, h2, h3, h4⟩ :=
    compress_file_roundtrip fsC6 "sra_downloads/SRR7/SRR7.fastq" [65, 67, 71, 84] (by decide)
  exact h3

/-- Concrete file store for the C5 counterexample run: two sibling
`.fastq` files, as `fasterq-dump --split-files` produces. -/
def fsC5 : Fs :=
  [("sra_downloads/SRR5/SRR5_1.fastq", [1]),
   ("sra_downloads/SRR5/SRR5_2.fastq", [2])]

/-- Claim C5 (evidence of the code bug): on an output list holding two
`.fastq` files, the compression loop of lines 151–155 — which mutates
`output_files` (`remove` + `append`) while iterating it — compresses only
the first one.  After the first iteration the second `.fastq` file has
shifted to index 0, already passed by the iterator, so it is never handed
to `compress_file`: it survives uncompressed both in the final output
list and in the file store, contradicting "no text-format file is
skipped". -/
theorem compress_loop_skips_second_fastq :
    compress_loop fsC5
        ["sra_downloads/SRR5/SRR5_1.fastq", "sra_downloads/SRR5/SRR5_2.fastq"] =
      ⟨[("sra_downloads/SRR5/SRR5_1.fastq.gz", [0, 1]),
        ("sra_downloads/SRR5/SRR5_2.fastq", [2])],
       ["sra_downloads/SRR5/SRR5_2.fastq", "sra_downloads/SRR5/SRR5_1.fastq.gz"],
       ["sra_downloads/SRR5/SRR5_1.fastq"], none⟩ ∧
    "sra_downloads/SRR5/SRR5_2.fastq" ∉
      (compress_loop fsC5
        ["sra_downloads/SRR5/SRR5_1.fastq", "sra_downloads/SRR5/SRR5_2.fastq"]).compressed ∧
    "sra_downloads/SRR5/SRR5_2.fastq" ∈
      (compress_loop fsC5
        ["sra_downloads/SRR5/SRR5_1.fastq", "sra_downloads/SRR5/SRR5_2.fastq"]).files := by
  refine ⟨by decide, by decide, by decide⟩

/-! ## Checksumming-state claims -/

theorem after_tools_checksum (cfg : Config) (env : AccEnv) (acc dir : String)
    (eff : Effects) (hcs : eff.checksummed = [])
    (hcomp : (compression_phase cfg env.fs
        (discover_outputs dir acc env.listing)).err = none) :
    ((compression_phase cfg env.fs (discover_outputs dir acc env.listing)).files = [] →
       (after_tools cfg env acc dir eff).result.md5Checksum = "N/A" ∧
       (after_tools cfg env acc dir eff).effects.checksummed = []) ∧
    (∀ f rest c,
       (compression_phase cfg env.fs (discover_outputs dir acc env.listing)).files =
         f :: rest →
       readFs (compression_phase cfg env.fs (discover_outputs dir acc env.listing)).fs f =
         some c →
       (after_tools cfg env acc dir eff).result.md5Checksum = calculate_md5 c ∧
       (after_tools cfg env acc dir eff).effects.checksummed = [f]) := by
  unfold after_tools
  dsimp only
  rw [hcomp]
  constructor
  · intro hnil
    rw [hnil]
    dsimp only [checksum_step]
    exact ⟨rfl, by simp [hcs]⟩
  · intro f rest c hcons hread
    rw [hcons]
    dsimp only [checksum_step]
    rw [hread]
    exact ⟨rfl, by simp [hcs]⟩

/-- Under the hypotheses that put `process_accession` on its success path
up to the checksumming state, the run is exactly an `after_tools` run
whose incoming effect log has no checksum reads yet. -/
theorem process_accession_after_tools (cfg : Config) (env : AccEnv) (acc : String)
    (hv : valid_accession acc = true) (hp : env.prefetchExit = 0)
    (hf : cfg.auto_convert = true → env.fasterqExit = 0) :
    ∃ eff, process_accession cfg env acc = after_tools cfg env acc (acc_dir cfg acc) eff ∧
      eff.checksummed = [] := by
  unfold process_accession validate_accession
  simp only [hv, if_true, hp, if_pos]
  cases hac : cfg.auto_convert with
  | true =>
      have hfq := hf hac
      simp only [hfq, if_pos, if_true]
      exact ⟨_, rfl, rfl⟩
  | false =>
      simp only [Bool.false_eq_true, if_false]
      exact ⟨_, rfl, rfl⟩

/-- Claim C7: on the success path (validation passed, tools exited zero,
compression loop raised no error), the recorded checksum is the checksum
of the first entry of the possibly compression-updated output list when
that list is non-empty, and the `"N/A"` sentinel when it is empty — in
which case the checksum utility reads no file at all. -/
theorem checksum_first_or_sentinel (cfg : Config) (env : AccEnv) (acc : String)
    (hv : valid_accession acc = true) (hp : env.prefetchExit = 0)
    (hf : cfg.auto_convert = true → env.fasterqExit = 0)
    (hcomp : (compression_phase cfg env.fs
        (discover_outputs (acc_dir cfg acc) acc env.listing)).err = none) :
    ((compression_phase cfg env.fs
        (discover_outputs (acc_dir cfg acc) acc env.listing)).files = [] →
       (process_accession cfg env acc).result.md5Checksum = "N/A" ∧
       (process_accession cfg env acc).effects.checksummed = []) ∧
    (∀ f rest c,
       (compression_phase cfg env.fs
           (discover_outputs (acc_dir cfg acc) acc env.listing)).files = f :: rest →
       readFs (compression_phase cfg env.fs
           (discover_outputs (acc_dir cfg acc) acc env.listing)).fs f = some c →
       (process_accession cfg env acc).result.md5Checksum = calculate_md5 c ∧
       (process_accession cfg env acc).effects.checksummed = [f]) := by
  obtain ⟨eff, heq, hcs⟩ := process_accession_after_tools cfg env acc hv hp hf
  rw [heq]
  exact after_tools_checksum cfg env acc (acc_dir cfg acc) eff hcs hcomp

theorem checksum_first_or_sentinel_witness :
    valid_accession "SRR000001" = true ∧
    envEmptyW.prefetchExit = 0 ∧
    (compression_phase cfgW envEmptyW.fs
        (discover_outputs (acc_dir cfgW "SRR000001") "SRR000001" envEmptyW.listing)).files =
      [] ∧
    (process_accession cfgW envEmptyW "SRR000001").result.md5Checksum = "N/A" ∧
    (process_accession cfgW envEmptyW "SRR000001").effects.checksummed = [] := by
  refine ⟨by decide, rfl, rfl, ?_⟩
  exact (checksum_first_or_sentinel cfgW envEmptyW "SRR000001" (by decide) rfl
    (fun _ => rfl) rfl).1 rfl

end SraFetch
